import Mathlib

/-!
Verification of the two command-line utilities of the
`developer-workday` repository: `check_tasks.py` (Summary Reporter)
and `show_task.py` (Task Detail Printer).  Both operate on a JSON
store `{"tasks": [...]}` of task records.

The embedding mirrors the Python sources:
* a task record is a JSON mapping whose schema fields may each be
  absent, so every field is an `Option`;
* `t.get(field, default)` becomes `Option.getD`;
* bracket access `t[field]` on a missing key raises `KeyError`, an
  uncaught exception that terminates the process with exit status 1
  after the output printed so far (modelled by the `crashed` flag);
* `int(arg)` on an unparseable string raises `ValueError`, likewise
  terminating with exit status 1 and nothing on standard output;
* each `print(x)` call appends one payload string to `stdout`
  (so `print()` appends `""`, and embedded `\n` stays inside the
  payload).
-/

namespace DevWorkday

/-- A task record of the JSON store.  Per the schema every field may be
absent from the mapping, hence the `Option`s. -/
structure Task where
  id : Option Int
  title : Option String
  description : Option String
  acceptanceCriteria : Option String
  passes : Option Bool
deriving DecidableEq, Repr

/-- Observable outcome of running one of the programs: the payloads of
its `print` calls in order, the process exit status, whether the task
store file was opened, and whether termination was by an uncaught
exception (traceback on stderr, exit status 1). -/
structure Outcome where
  stdout : List String
  exitCode : Nat
  storeLoaded : Bool
  crashed : Bool
deriving DecidableEq, Repr

/-- Python's `repr`/f-string rendering of a boolean. -/
def pyBool (b : Bool) : String := if b then "True" else "False"

/-- Characters Python's `int(str)` strips from both ends. -/
def isPySpace (c : Char) : Bool :=
  c = ' ' || c = '\t' || c = '\n' || c = '\x0d' || c = '\x0b' || c = '\x0c'

/-- Value of an ASCII decimal digit. -/
def digitVal (c : Char) : Option Nat :=
  if '0' ≤ c && c ≤ '9' then some (c.toNat - '0'.toNat) else none

/-- Left fold of decimal digits; `none` as soon as a non-digit occurs. -/
def natOfDigits (acc : Nat) : List Char → Option Nat
  | [] => some acc
  | c :: cs =>
    match digitVal c with
    | none => none
    | some d => natOfDigits (10 * acc + d) cs

/-- Models Python's `int()` applied to a string: surrounding
whitespace is stripped, then an optional sign followed by a non-empty
run of decimal digits.  (Digit-group underscores and non-ASCII digits
are outside the model; no claim exercises them.)  `none` models the
`ValueError` raised on any other input. -/
def pyInt (s : String) : Option Int :=
  let cs := ((s.toList.dropWhile isPySpace).reverse.dropWhile isPySpace).reverse
  match cs with
  | '-' :: rest =>
    if rest = [] then none else (natOfDigits 0 rest).map (fun n => -(n : Int))
  | '+' :: rest =>
    if rest = [] then none else (natOfDigits 0 rest).map (fun n => (n : Int))
  | rest =>
    if rest = [] then none else (natOfDigits 0 rest).map (fun n => (n : Int))

/-! ### Summary Reporter (`check_tasks.py`) -/

/-- `t.get('passes', False)` used as the truthiness test of
`check_tasks.py` line 7 and `show_task.py` line 15. -/
def truthy (t : Task) : Bool := t.passes.getD false

/-- The three count lines and the blank line printed by
`check_tasks.py` lines 9-12: total, passing (records whose `passes`
defaults to truthy), remaining (the rest), then `print()`. -/
def countLines (store : List Task) : List String :=
  ["Total: " ++ toString store.length,
   "Passing: " ++ toString (store.filter truthy).length,
   "Remaining: " ++ toString (store.filter (fun t => !(truthy t))).length,
   ""]

/-- The module body of `check_tasks.py`, given the successfully loaded
`tasks` list.  Prints the three counts and a blank line, then either
the first remaining task's id and title or the all-passing message.
Bracket access `t["id"]` / `t["title"]` on the first remaining task
crashes with `KeyError` when the key is absent, after the lines
already printed. -/
def checkTasksMain (store : List Task) : Outcome :=
  match store.filter (fun t => !(truthy t)) with
  | [] => ⟨countLines store ++ ["All tasks are passing!"], 0, true, false⟩
  | t :: _ =>
    match t.id with
    | none => ⟨countLines store ++ ["Next not-passing task:"], 1, true, true⟩
    | some i =>
      match t.title with
      | none =>
        ⟨countLines store ++ ["Next not-passing task:", "  ID: " ++ toString i],
         1, true, true⟩
      | some s =>
        ⟨countLines store ++ ["Next not-passing task:", "  ID: " ++ toString i,
                              "  Title: " ++ s], 0, true, false⟩

/-! ### Task Detail Printer (`show_task.py`) -/

/-- The usage message of `show_task.py` line 6. -/
def usageMsg : String := "Usage: python show_task.py <task_id>"

/-- The `for t in obj['tasks']` loop of `show_task.py` lines 12-13:
returns the first record whose `id` equals `k`, `none` after a full
scan, or an error when a record reached by the scan lacks the `id`
key (`KeyError` from `t['id']`). -/
def lookupLoop (k : Int) : List Task → Except String (Option Task)
  | [] => .ok none
  | t :: rest =>
    match t.id with
    | none => .error "KeyError: id"
    | some i => if i = k then .ok (some t) else lookupLoop k rest

/-- The four `print` calls of `show_task.py` lines 14-17 on the found
record.  `t['title']` raises `KeyError` when absent (inside the first
f-string, so nothing of it is printed); `passes`, `description` and
`acceptanceCriteria` use `.get` defaults. -/
def showTaskFound (t : Task) : Outcome :=
  match t.id, t.title with
  | some i, some s =>
    ⟨["# " ++ toString i ++ ": " ++ s,
      "passes: " ++ pyBool (t.passes.getD false),
      "\nDescription:\n" ++ t.description.getD "",
      "\nAcceptance criteria (Gherkin):\n" ++ t.acceptanceCriteria.getD ""],
     0, true, false⟩
  | _, _ => ⟨[], 1, true, true⟩

/-- `show_task.py` lines 12-21 after the store is loaded: scan for the
parsed id `k`, print the detail on a hit, or the not-found message and
exit 1 after a full miss. -/
def showTaskLookup (k : Int) (store : List Task) : Outcome :=
  match lookupLoop k store with
  | .error _ => ⟨[], 1, true, true⟩
  | .ok none => ⟨["Task " ++ toString k ++ " not found"], 1, true, false⟩
  | .ok (some t) => showTaskFound t

/-- The module body of `show_task.py`, given the user arguments
`sys.argv[1:]` and the store the Reader would load.  Line 4 parses
`sys.argv[1]` when present (`ValueError` crash on an unparseable
string, before any output); line 5's `if not task_id` sends both the
no-argument case (`None`) and a parsed `0` to the usage path, which
never opens the store. -/
def showTaskMain (args : List String) (store : List Task) : Outcome :=
  match args with
  | [] => ⟨[usageMsg], 1, false, false⟩
  | a :: _ =>
    match pyInt a with
    | none => ⟨[], 1, false, true⟩
    | some k =>
      if k = 0 then ⟨[usageMsg], 1, false, false⟩ else showTaskLookup k store

/-- Well-formedness of a loaded store per the spec's invariant (§3):
every record contains at least the `id` and `title` keys. -/
def wellFormedB (store : List Task) : Bool :=
  store.all (fun t => t.id.isSome && t.title.isSome)

/-- First record of the store whose `id` equals `k`, in sequence
order. -/
def findById (k : Int) (store : List Task) : Option Task :=
  store.find? (fun r => r.id = some k)

/-- First record of the store whose `passes` is falsy or absent, in
sequence order. -/
def firstRemaining (store : List Task) : Option Task :=
  store.find? (fun t => !(truthy t))

/- Concrete records used to instantiate the theorems. -/

/-- A record whose `id` is the integer `0`. -/
def taskZero : Task := ⟨some 0, some "Zero", none, none, none⟩

/-- A passing record with `id = 1`. -/
def taskOne : Task := ⟨some 1, some "One", none, none, some true⟩

/-- A not-yet-passing record with `id = 2` and both optional texts
present. -/
def taskTwo : Task := ⟨some 2, some "Two", some "desc", some "crit", some false⟩

/-- A record that is an empty JSON mapping: every key absent. -/
def taskBare : Task := ⟨none, none, none, none, none⟩

/-! ### Helper lemmas -/

/-- The two partitions of `check_tasks.py` line 7 and line 10 cover
the store exactly once each. -/
theorem length_filter_partition (p : Task → Bool) (l : List Task) :
    (l.filter p).length + (l.filter (fun t => !(p t))).length = l.length := by
  induction l with
  | nil => rfl
  | cons t ts ih => cases hp : p t <;> simp [List.filter_cons, hp] <;> omega

/-- The first element surviving a filter is the first element
satisfying its predicate. -/
theorem find?_eq_head?_filter (p : Task → Bool) (l : List Task) :
    l.find? p = (l.filter p).head? := by
  induction l with
  | nil => rfl
  | cons t ts ih =>
    cases hp : p t
    · rw [List.find?_cons_of_neg ts (by simp [hp]), List.filter_cons_of_neg (by simp [hp]), ih]
    · rw [List.find?_cons_of_pos ts hp, List.filter_cons_of_pos hp, List.head?_cons]

/-- Records of a well-formed store have their `id` and `title` keys. -/
theorem wf_mem (store : List Task) (t : Task) (hwf : wellFormedB store = true)
    (ht : t ∈ store) : t.id.isSome = true ∧ t.title.isSome = true := by
  have h := List.all_eq_true.mp hwf t ht
  simpa [Bool.and_eq_true] using h

/-- On a store all of whose records have the `id` key, the lookup loop
of `show_task.py` never raises and returns the first record with the
requested id. -/
theorem lookupLoop_eq_findById (k : Int) (l : List Task)
    (h : ∀ t ∈ l, t.id.isSome = true) :
    lookupLoop k l = .ok (findById k l) := by
  induction l with
  | nil => rfl
  | cons t ts ih =>
    obtain ⟨i, hid⟩ := Option.isSome_iff_exists.mp (h t (List.mem_cons_self t ts))
    by_cases hik : i = k
    · subst hik
      rw [findById, List.find?_cons_of_pos ts (by simp [hid])]
      simp [lookupLoop, hid]
    · rw [findById, List.find?_cons_of_neg ts (by simp [hid, hik])]
      simp only [lookupLoop, hid, if_neg hik]
      exact ih (fun t' ht' => h t' (List.mem_cons_of_mem t ht'))

/-- All branches of the detail printing report the store opened. -/
theorem showTaskFound_storeLoaded (t : Task) : (showTaskFound t).storeLoaded = true := by
  obtain ⟨i, ttl, d, a, ps⟩ := t
  cases i <;> cases ttl <;> rfl

/-- Every branch after the store is opened reports it opened. -/
theorem showTaskLookup_storeLoaded (k : Int) (store : List Task) :
    (showTaskLookup k store).storeLoaded = true := by
  cases h : lookupLoop k store with
  | error e => simp [showTaskLookup, h]
  | ok o =>
    cases o with
    | none => simp [showTaskLookup, h]
    | some t => simp [showTaskLookup, h, showTaskFound_storeLoaded]

/-! ### Claim theorems -/

/-- C6: invoked with zero arguments, the Task Detail Printer prints the
usage message, exits with status 1, and never opens the task-store
file. -/
theorem show_task_no_args_usage (store : List Task) :
    showTaskMain [] store = ⟨[usageMsg], 1, false, false⟩ := rfl

/-- C9: on the empty store the Summary Reporter prints the three zero
counts, a blank line, and the all-passing message, exiting 0 and never
printing a task id or title. -/
theorem check_tasks_empty_store :
    checkTasksMain [] =
      ⟨["Total: 0", "Passing: 0", "Remaining: 0", "", "All tasks are passing!"],
       0, true, false⟩ := rfl

/-- C3: an argument parsing to `0` makes the Task Detail Printer behave
exactly as if no argument had been supplied, on every store — including
stores containing a record with `id = 0`. -/
theorem show_task_zero_equals_no_arg (s : String) (rest : List String)
    (store : List Task) (h : pyInt s = some 0) :
    showTaskMain (s :: rest) store = showTaskMain [] store := by
  simp [showTaskMain, h]

theorem show_task_zero_equals_no_arg_witness :
    pyInt "0" = some 0 ∧
    showTaskMain ["0"] [taskZero] = showTaskMain [] [taskZero] :=
  ⟨rfl, show_task_zero_equals_no_arg "0" [] [taskZero] rfl⟩

/-- C2 counterexample: the argument `"abc"` is not parseable as an
integer, yet the program prints nothing to standard output — the
`ValueError` from `int()` is uncaught — so no usage message appears. -/
theorem show_task_unparseable_cex :
    pyInt "abc" = none ∧
    showTaskMain ["abc"] [] = ⟨[], 1, false, true⟩ :=
  ⟨rfl, rfl⟩

/-- C2 (amended): with a falsy argument (parsing to `0`) the program
prints the usage message and exits 1; with an unparseable argument it
terminates with status 1 by an uncaught `ValueError`, printing nothing
to standard output.  In both cases the store is never opened. -/
theorem show_task_no_usable_id (s : String) (rest : List String)
    (store : List Task) (h : pyInt s = none ∨ pyInt s = some 0) :
    (showTaskMain (s :: rest) store).exitCode = 1 ∧
    (showTaskMain (s :: rest) store).storeLoaded = false ∧
    (showTaskMain (s :: rest) store).stdout =
      (if pyInt s = some 0 then [usageMsg] else []) := by
  rcases h with h | h <;> simp [showTaskMain, h]

theorem show_task_no_usable_id_witness :
    (showTaskMain ["0"] ([] : List Task)).exitCode = 1 ∧
    (showTaskMain ["0"] ([] : List Task)).storeLoaded = false ∧
    (showTaskMain ["0"] ([] : List Task)).stdout =
      (if pyInt "0" = some 0 then [usageMsg] else []) :=
  show_task_no_usable_id "0" [] [] (Or.inr rfl)

/-- C10: every argument parsing to a nonzero integer — negative values
included — proceeds to load the store and run the lookup, instead of
taking the usage path (which would leave the store unopened). -/
theorem show_task_nonzero_loads_store (s : String) (rest : List String) (k : Int)
    (store : List Task) (hparse : pyInt s = some k) (hk : k ≠ 0) :
    showTaskMain (s :: rest) store = showTaskLookup k store ∧
    (showTaskMain (s :: rest) store).storeLoaded = true := by
  have he : showTaskMain (s :: rest) store = showTaskLookup k store := by
    simp [showTaskMain, hparse, hk]
  exact ⟨he, he ▸ showTaskLookup_storeLoaded k store⟩

theorem show_task_nonzero_loads_store_witness :
    pyInt "-5" = some (-5) ∧
    (showTaskMain ["-5"] [taskOne] = showTaskLookup (-5) [taskOne] ∧
     (showTaskMain ["-5"] [taskOne]).storeLoaded = true) :=
  ⟨rfl, show_task_nonzero_loads_store "-5" [] (-5) [taskOne] rfl (by decide)⟩

/-- C7 counterexample: `0` does not occur as an id in the store
`[taskOne]`, yet the program prints the usage message (which mentions
no identifier) rather than a not-found message, and never scans the
store. -/
theorem show_task_absent_zero_cex :
    findById 0 [taskOne] = none ∧
    showTaskMain ["0"] [taskOne] = ⟨[usageMsg], 1, false, false⟩ :=
  ⟨rfl, rfl⟩

/-- C7 (amended): for every well-formed store and nonzero integer `k`
absent from it, the Task Detail Printer scans the whole sequence and
exits 1 with the not-found message mentioning `k`. -/
theorem show_task_not_found (s : String) (rest : List String) (k : Int)
    (store : List Task) (hparse : pyInt s = some k) (hk : k ≠ 0)
    (hwf : wellFormedB store = true) (habsent : findById k store = none) :
    showTaskMain (s :: rest) store =
      ⟨["Task " ++ toString k ++ " not found"], 1, true, false⟩ := by
  have hids : ∀ t ∈ store, t.id.isSome = true := fun t ht => (wf_mem store t hwf ht).1
  simp [showTaskMain, hparse, hk, showTaskLookup,
        lookupLoop_eq_findById k store hids, habsent]

theorem show_task_not_found_witness :
    pyInt "99" = some 99 ∧ findById 99 [taskOne] = none ∧
    showTaskMain ["99"] [taskOne] = ⟨["Task 99 not found"], 1, true, false⟩ :=
  ⟨rfl, rfl, show_task_not_found "99" [] 99 [taskOne] rfl (by decide) rfl rfl⟩

/-- C1 counterexample: the identifier `0` occurs in the store
`[taskZero]`, yet the program exits with status 1 and prints only the
usage message instead of the record's fields. -/
theorem show_task_zero_id_cex :
    findById 0 [taskZero] = some taskZero ∧
    showTaskMain ["0"] [taskZero] = ⟨[usageMsg], 1, false, false⟩ :=
  ⟨rfl, rfl⟩

/-- C1 (amended): for every well-formed store and nonzero identifier
`k` occurring in it, the Task Detail Printer exits 0 and prints exactly
the title, the `passes` flag (default false), the description (default
empty) and the acceptance criteria (default empty) of the first record
whose id equals `k`. -/
theorem show_task_found_prints_detail (s : String) (rest : List String) (k : Int)
    (store : List Task) (t : Task)
    (hparse : pyInt s = some k) (hk : k ≠ 0) (hwf : wellFormedB store = true)
    (hfind : findById k store = some t) :
    t.id = some k ∧ ∃ ttl, t.title = some ttl ∧
      showTaskMain (s :: rest) store =
        ⟨["# " ++ toString k ++ ": " ++ ttl,
          "passes: " ++ pyBool (t.passes.getD false),
          "\nDescription:\n" ++ t.description.getD "",
          "\nAcceptance criteria (Gherkin):\n" ++ t.acceptanceCriteria.getD ""],
         0, true, false⟩ := by
  have hids : ∀ r ∈ store, r.id.isSome = true := fun r hr => (wf_mem store r hwf hr).1
  have hfind' : store.find? (fun r => r.id = some k) = some t := hfind
  have hmem : t ∈ store := List.mem_of_find?_eq_some hfind'
  have hid : t.id = some k := by simpa using List.find?_some hfind'
  obtain ⟨ttl, httl⟩ := Option.isSome_iff_exists.mp (wf_mem store t hwf hmem).2
  refine ⟨hid, ttl, httl, ?_⟩
  simp [showTaskMain, hparse, hk, showTaskLookup,
        lookupLoop_eq_findById k store hids, hfind, showTaskFound, hid, httl]

theorem show_task_found_prints_detail_witness :
    pyInt "2" = some 2 ∧ wellFormedB [taskOne, taskTwo] = true ∧
    findById 2 [taskOne, taskTwo] = some taskTwo ∧
    (taskTwo.id = some 2 ∧ ∃ ttl, taskTwo.title = some ttl ∧
      showTaskMain ["2"] [taskOne, taskTwo] =
        ⟨["# " ++ toString (2 : Int) ++ ": " ++ ttl,
          "passes: " ++ pyBool (taskTwo.passes.getD false),
          "\nDescription:\n" ++ taskTwo.description.getD "",
          "\nAcceptance criteria (Gherkin):\n" ++ taskTwo.acceptanceCriteria.getD ""],
         0, true, false⟩) :=
  ⟨rfl, rfl, rfl,
   show_task_found_prints_detail "2" [] 2 [taskOne, taskTwo] taskTwo rfl
     (by decide) rfl rfl⟩

/-- C4: the three counts printed by the Summary Reporter always satisfy
total = passing + remaining, each record landing in exactly one of the
two filters. -/
theorem check_tasks_total_partition (store : List Task) :
    ∃ rest,
      (checkTasksMain store).stdout =
        ("Total: " ++ toString ((store.filter truthy).length +
                                (store.filter (fun t => !(truthy t))).length)) ::
        ("Passing: " ++ toString (store.filter truthy).length) ::
        ("Remaining: " ++ toString (store.filter (fun t => !(truthy t))).length) ::
        rest := by
  rw [length_filter_partition truthy store]
  cases hrem : store.filter (fun t => !(truthy t)) with
  | nil =>
    exact ⟨["", "All tasks are passing!"], by simp [checkTasksMain, countLines, hrem]⟩
  | cons t ts =>
    rcases hti : t.id with _ | i
    · exact ⟨["", "Next not-passing task:"],
        by simp [checkTasksMain, countLines, hrem, hti]⟩
    · rcases htt : t.title with _ | ttl
      · exact ⟨["", "Next not-passing task:", "  ID: " ++ toString i],
          by simp [checkTasksMain, countLines, hrem, hti, htt]⟩
      · exact ⟨["", "Next not-passing task:", "  ID: " ++ toString i,
                "  Title: " ++ ttl],
          by simp [checkTasksMain, countLines, hrem, hti, htt]⟩

/-- C5: when the remaining partition is non-empty, the id and title the
Summary Reporter prints are those of the first record in sequence order
whose `passes` is falsy or absent. -/
theorem check_tasks_next_is_first_remaining (store : List Task) (t : Task) (i : Int)
    (ttl : String) (hfirst : firstRemaining store = some t)
    (hid : t.id = some i) (httl : t.title = some ttl) :
    checkTasksMain store =
      ⟨countLines store ++
         ["Next not-passing task:", "  ID: " ++ toString i, "  Title: " ++ ttl],
       0, true, false⟩ := by
  have h1 : (store.filter (fun t => !(truthy t))).head? = some t := by
    rw [← find?_eq_head?_filter]; exact hfirst
  cases hrem : store.filter (fun t => !(truthy t)) with
  | nil => rw [hrem] at h1; simp at h1
  | cons u us =>
    rw [hrem] at h1
    rw [List.head?_cons, Option.some.injEq] at h1
    subst h1
    simp [checkTasksMain, hrem, hid, httl]

theorem check_tasks_next_is_first_remaining_witness :
    firstRemaining [taskOne, taskTwo] = some taskTwo ∧
    checkTasksMain [taskOne, taskTwo] =
      ⟨countLines [taskOne, taskTwo] ++
         ["Next not-passing task:", "  ID: " ++ toString (2 : Int),
          "  Title: " ++ "Two"],
       0, true, false⟩ :=
  ⟨rfl, check_tasks_next_is_first_remaining [taskOne, taskTwo] taskTwo 2 "Two" rfl rfl rfl⟩

/-- C8 counterexample: the store `[taskBare]` (one record that is an
empty mapping) loads successfully, yet the Summary Reporter terminates
with exit status 1 — a `KeyError` on `t["id"]`, a failure path that is
not a store-load failure. -/
theorem check_tasks_keyerror_cex :
    checkTasksMain [taskBare] =
      ⟨["Total: 1", "Passing: 0", "Remaining: 1", "", "Next not-passing task:"],
       1, true, true⟩ := rfl

/-- C8 (amended): on every successfully loaded store satisfying the
spec's invariant that each record has `id` and `title`, the Summary
Reporter exits 0 and never crashes. -/
theorem check_tasks_wellformed_exit_zero (store : List Task)
    (hwf : wellFormedB store = true) :
    (checkTasksMain store).exitCode = 0 ∧ (checkTasksMain store).crashed = false := by
  cases hrem : store.filter (fun t => !(truthy t)) with
  | nil => simp [checkTasksMain, hrem]
  | cons t ts =>
    have hmem : t ∈ store := by
      refine List.mem_of_mem_filter (p := fun t => !(truthy t)) ?_
      rw [hrem]
      exact List.mem_cons_self t ts
    obtain ⟨hid, httl⟩ := wf_mem store t hwf hmem
    obtain ⟨i, hi⟩ := Option.isSome_iff_exists.mp hid
    obtain ⟨ttl, hT⟩ := Option.isSome_iff_exists.mp httl
    simp [checkTasksMain, hrem, hi, hT]

theorem check_tasks_wellformed_exit_zero_witness :
    wellFormedB [taskOne, taskTwo] = true ∧
    ((checkTasksMain [taskOne, taskTwo]).exitCode = 0 ∧
     (checkTasksMain [taskOne, taskTwo]).crashed = false) :=
  ⟨rfl, check_tasks_wellformed_exit_zero [taskOne, taskTwo] rfl⟩

end DevWorkday
